import Mathlib

/-!
Verification of the MotionObserver library (src/index.ts).

The development is a shallow embedding of the library's core:
the pure math kernel (vectors, quaternions, matrices), the event-synthesis
functions, the capability-detection state machine of the `MotionObserver`
class, and the listener registry with its dispatch pass.

Numbers are modelled as real numbers.  JavaScript `null`/`undefined`
defaults (the `?? d` operator) are modelled with `Option` and `Option.getD`.
The `#hasAbsoluteOrientation` / `#hasAccelerationWithoutGravity` fields,
which at runtime hold `null`, a number or a boolean, are modelled by the
inductive type `NumBool`.
-/

namespace MotionObserverSpec

noncomputable section
open Classical

/-- Coefficient to multiply degree measurements by to convert to radians
(`DEG_TO_RAD` in the source). -/
def DEG_TO_RAD : ℝ := Real.pi / 180

/-- Constant of gravity (`GRAVITY` in the source). -/
def GRAVITY : ℝ := 9.80665

/-- Maximum number of ms to wait for more precise events before determining
that they are unsupported (`MEASUREMENT_EPSILON` in the source).
Timestamps (`Date.now()`) are modelled as integers. -/
def MEASUREMENT_EPSILON : ℤ := 20

/-- A 3D vector, `[x, y, z]` in the source. -/
structure Vec3 where
  x : ℝ
  y : ℝ
  z : ℝ

/-- A quaternion in xyzw order, `[x, y, z, w]` in the source. -/
structure Quat where
  x : ℝ
  y : ℝ
  z : ℝ
  w : ℝ

/-- A row-major 4x4 matrix (the source's flat 16-tuple `Matrix`). -/
structure Mat4 where
  r1c1 : ℝ
  r1c2 : ℝ
  r1c3 : ℝ
  r1c4 : ℝ
  r2c1 : ℝ
  r2c2 : ℝ
  r2c3 : ℝ
  r2c4 : ℝ
  r3c1 : ℝ
  r3c2 : ℝ
  r3c3 : ℝ
  r3c4 : ℝ
  r4c1 : ℝ
  r4c2 : ℝ
  r4c3 : ℝ
  r4c4 : ℝ

/-- Subtracts vector `b` from `a`, returning a new vector (`vecSub`). -/
def vecSub (a b : Vec3) : Vec3 :=
  ⟨a.x - b.x, a.y - b.y, a.z - b.z⟩

/-- Applies a quaternion rotation to the provided vector (`vecApplyQuat`). -/
def vecApplyQuat (v : Vec3) (q : Quat) : Vec3 :=
  let tX := 2 * (q.y * v.z - q.z * v.y)
  let tY := 2 * (q.z * v.x - q.x * v.z)
  let tZ := 2 * (q.x * v.y - q.y * v.x)
  ⟨v.x + q.w * tX + q.y * tZ - q.z * tY,
   v.y + q.w * tY + q.z * tX - q.x * tZ,
   v.z + q.w * tZ + q.x * tY - q.y * tX⟩

/-- Converts a euler to a quaternion, processing its properties in YXZ order
(`quatFromEulerYXZ`). -/
def quatFromEulerYXZ (v : Vec3) : Quat :=
  let c1 := Real.cos (v.x / 2)
  let c2 := Real.cos (v.y / 2)
  let c3 := Real.cos (v.z / 2)
  let s1 := Real.sin (v.x / 2)
  let s2 := Real.sin (v.y / 2)
  let s3 := Real.sin (v.z / 2)
  ⟨s1 * c2 * c3 + c1 * s2 * s3,
   c1 * s2 * c3 - s1 * c2 * s3,
   c1 * c2 * s3 - s1 * s2 * c3,
   c1 * c2 * c3 + s1 * s2 * s3⟩

/-- Multiplies two quaternions, returning a new quaternion (`quatMultiply`). -/
def quatMultiply (a b : Quat) : Quat :=
  ⟨a.x * b.w + a.w * b.x + a.y * b.z - a.z * b.y,
   a.y * b.w + a.w * b.y + a.z * b.x - a.x * b.z,
   a.z * b.w + a.w * b.z + a.x * b.y - a.y * b.x,
   a.w * b.w - a.x * b.x - a.y * b.y - a.z * b.z⟩

/-- Converts a `deviceorientationevent`'s `alpha`, `beta`, and `gamma`
properties (already in radians) to a quaternion (`orientationToQuat`). -/
def orientationToQuat (alpha beta gamma : ℝ) : Quat :=
  quatMultiply (quatFromEulerYXZ ⟨beta, alpha, -gamma⟩)
    ⟨-Real.sqrt 0.5, 0, 0, Real.sqrt 0.5⟩

/-- Creates a 4x4 row-major matrix from a quaternion (`matFromQuat`). -/
def matFromQuat (q : Quat) : Mat4 :=
  let x2 := q.x + q.x
  let y2 := q.y + q.y
  let z2 := q.z + q.z
  let xx := q.x * x2
  let xy := q.x * y2
  let xz := q.x * z2
  let yy := q.y * y2
  let yz := q.y * z2
  let zz := q.z * z2
  let wx := q.w * x2
  let wy := q.w * y2
  let wz := q.w * z2
  ⟨1 - (yy + zz), xy - wz, xz + wy, 0,
   xy + wz, 1 - (xx + zz), yz - wx, 0,
   xz - wy, yz + wx, 1 - (xx + yy), 0,
   0, 0, 0, 1⟩

/-- Sum of the squared components of a quaternion (the spec's
"squared-component sum"). -/
def normSq (q : Quat) : ℝ :=
  q.x ^ 2 + q.y ^ 2 + q.z ^ 2 + q.w ^ 2

/-! ### Event payloads and synthesis -/

/-- Detail of a synthesized acceleration event (`AccelerationEvent`). -/
structure AccelerationDetail where
  acc : Vec3
  interval : ℝ
  inaccurate : Bool

/-- Detail of a synthesized orientation event (`OrientationEvent`).
The source's `mat` field is a lazy thunk `() => matFromQuat(quat)`; it is
modelled by its value. -/
structure OrientationDetail where
  quat : Quat
  mat : Mat4
  alpha : ℝ
  beta : ℝ
  gamma : ℝ
  absolute : Bool
  webkitCompassHeading : Option ℝ
  webkitCompassAccuracy : Option ℝ

/-- A raw `DeviceOrientationEvent` as delivered by the platform: nullable
angles, an absolute flag and optional webkit compass fields. -/
structure RawOrientation where
  alpha : Option ℝ
  beta : Option ℝ
  gamma : Option ℝ
  absolute : Bool
  webkitCompassHeading : Option ℝ
  webkitCompassAccuracy : Option ℝ

/-- A platform acceleration reading whose individual components may be null. -/
structure NullableVec3 where
  x : Option ℝ
  y : Option ℝ
  z : Option ℝ

/-- A raw `DeviceMotionEvent`: two nullable acceleration readings and a
sampling interval. -/
structure RawMotion where
  acceleration : Option NullableVec3
  accelerationIncludingGravity : Option NullableVec3
  interval : ℝ

/-- JavaScript `e.field?.comp ?? d`: component access through two levels of
nullability with a default. -/
def nget (v : Option NullableVec3) (comp : NullableVec3 → Option ℝ) (d : ℝ) : ℝ :=
  ((v.bind comp).getD d)

/-- Sign multiplier applied to acceleration components: iOS has reversed
acceleration values compared to Android (`IS_IOS ? -1 : 1`).  The process-wide
`IS_IOS` constant is threaded as an explicit parameter. -/
def iosSign (isIOS : Bool) : ℝ := if isIOS then -1 else 1

/-- Builds the orientation event payload from a raw device event
(`orientationEventFromDevice`). -/
def orientationEventFromDevice (e : RawOrientation) : OrientationDetail :=
  let alpha := (e.alpha.getD 0) * DEG_TO_RAD
  let beta := (e.beta.getD 0) * DEG_TO_RAD
  let gamma := (e.gamma.getD 0) * DEG_TO_RAD
  let quat := orientationToQuat alpha beta gamma
  { quat := quat
    mat := matFromQuat quat
    alpha := alpha
    beta := beta
    gamma := gamma
    absolute := e.absolute
    webkitCompassHeading :=
      match e.webkitCompassHeading with
      | some h => some (h * DEG_TO_RAD)
      | none => none
    webkitCompassAccuracy :=
      match e.webkitCompassHeading with
      | some _ => some ((e.webkitCompassAccuracy.getD 0) * DEG_TO_RAD)
      | none => none }

/-- Builds a direct (gravity-exclusive) acceleration event payload
(`accelerationEventFromDevice`). -/
def accelerationEventFromDevice (isIOS : Bool) (e : RawMotion) : AccelerationDetail :=
  { acc := ⟨nget e.acceleration NullableVec3.x 0 * iosSign isIOS,
            nget e.acceleration NullableVec3.y 0 * iosSign isIOS,
            nget e.acceleration NullableVec3.z 0 * iosSign isIOS⟩
    interval := e.interval
    inaccurate := false }

/-- Builds a gravity-inclusive acceleration event payload
(`accelerationInclGravityEventFromDevice`); a missing vertical-axis reading
defaults to the gravity constant, not to zero. -/
def accelerationInclGravityEventFromDevice (isIOS : Bool) (e : RawMotion) : AccelerationDetail :=
  { acc := ⟨nget e.accelerationIncludingGravity NullableVec3.x 0 * iosSign isIOS,
            nget e.accelerationIncludingGravity NullableVec3.y GRAVITY * iosSign isIOS,
            nget e.accelerationIncludingGravity NullableVec3.z 0 * iosSign isIOS⟩
    interval := e.interval
    inaccurate := false }

/-- Derives a gravity-exclusive acceleration event from a gravity-inclusive
event and the last-known orientation quaternion
(`accelerationEventFromAccInclGravityEventAndOrientationQuat`). -/
def accelerationEventFromAccInclGravityEventAndOrientationQuat
    (e : AccelerationDetail) (q : Quat) : AccelerationDetail :=
  { acc := vecSub e.acc (vecApplyQuat ⟨0, -GRAVITY, 0⟩ q)
    interval := e.interval
    inaccurate := true }

/-! ### The listener registry and the dispatch pass

A callback stored in the registry is modelled by the only effect it can have
on the dispatch logic: reading and possibly setting the event's
propagation-stop signal (`cancelBubble`).  The `id` field models JavaScript
object identity (the `Set`s are identity-based). -/

/-- A registered listener: its identity and its effect on the event's
`cancelBubble` flag when invoked. -/
structure DispatchListener where
  id : ℕ
  run : Bool → Bool

/-- One `for (let cb of ...)` loop of `#triggerCallbacks`: invoke each
listener in order on the current `cancelBubble` value; after each invocation,
if the flag is set, leave the loop early.  Returns the invoked listener ids
in order, the final flag, and whether the loop was left early. -/
def runLoop : List DispatchListener → Bool → List ℕ × Bool × Bool
  | [], b => ([], b, false)
  | l :: rest, b =>
    let b1 := l.run b
    if b1 then ([l.id], b1, true)
    else
      match runLoop rest b1 with
      | (ids, b2, s) => (l.id :: ids, b2, s)

/-- Outcome of one dispatch pass: the ids of all invoked listeners in
invocation order, the one-shot collection as it stands after the pass, and
the final `cancelBubble` value. -/
structure DispatchResult where
  invoked : List ℕ
  onceAfter : List DispatchListener
  bubble : Bool

/-- The body of `MotionObserver.#triggerCallbacks` on the two listener
collections of one motion-type: run the persistent loop; if it returned
early (propagation stopped), return at once — the one-shot collection is
left untouched.  Otherwise run the one-shot loop (leaving it early on
propagation-stop) and then clear the one-shot collection. -/
def dispatchPass (persistent once : List DispatchListener) (b : Bool) : DispatchResult :=
  match runLoop persistent b with
  | (pids, b1, true) => ⟨pids, once, b1⟩
  | (pids, b1, false) =>
    match runLoop once b1 with
    | (oids, b2, _) => ⟨pids ++ oids, [], b2⟩

/-! ### The MotionObserver state machine -/

/-- A type of motion the MotionObserver can listen to (`MotionType`). -/
inductive MotionType where
  | orientation
  | acceleration
  | accelerationInclGravity
deriving DecidableEq

/-- Which native window listeners are currently attached
(`deviceorientation`, `deviceorientationabsolute`, `devicemotion`). -/
structure NativeListeners where
  orientation : Bool
  orientationAbsolute : Bool
  motion : Bool
deriving DecidableEq

/-- Runtime type of `#hasAbsoluteOrientation` and
`#hasAccelerationWithoutGravity`: `null`, a deadline timestamp, or a
resolved boolean. -/
inductive NumBool where
  | null
  | num (deadline : ℤ)
  | bool (b : Bool)
deriving DecidableEq

/-- The private state of a `MotionObserver` instance.  The two callback
`Map`s are modelled as functions from motion-type to an optional listener
list: `none` models a key absent from the map (so that `map.get(type)!`
yields `undefined` and the subsequent use throws), `some s` models a present
per-type set with insertion-ordered contents `s`. -/
structure ObserverState where
  observed : List MotionType
  hasAbsoluteOrientation : NumBool
  hasAccelerationWithoutGravity : NumBool
  lastOrientationQuat : Option Quat
  callbacks : MotionType → Option (List DispatchListener)
  onceCallbacks : MotionType → Option (List DispatchListener)
  attached : NativeListeners

/-- State of a freshly constructed `MotionObserver`: nothing observed, both
capability flags `null`, no last orientation, both maps populated with an
empty set per motion-type, no native listeners attached. -/
def initialState : ObserverState :=
  { observed := []
    hasAbsoluteOrientation := .null
    hasAccelerationWithoutGravity := .null
    lastOrientationQuat := none
    callbacks := fun _ => some []
    onceCallbacks := fun _ => some []
    attached := ⟨false, false, false⟩ }

/-- Class-level `#triggerCallbacks`: looks the two per-type sets up in the
maps and runs `dispatchPass` over them, writing the surviving one-shot
collection back.  Returns `none` where the JavaScript code throws: when a
required map key is absent (`.get(type)!` is `undefined`).  Note that when
the persistent loop stops propagation the method returns before touching
the one-shot map, so a missing one-shot key does not throw there. -/
def triggerCallbacks (st : ObserverState) (t : MotionType) (b : Bool) :
    Option ObserverState :=
  match st.callbacks t with
  | none => none
  | some ps =>
    match runLoop ps b with
    | (_, _, true) => some st
    | (_, b1, false) =>
      match st.onceCallbacks t with
      | none => none
      | some os =>
        match runLoop os b1 with
        | _ =>
          some { st with
                  onceCallbacks := fun u => if u = t then some [] else st.onceCallbacks u }

/-- JavaScript `Set.prototype.add`: append if no element with the same
identity is present. -/
def setAdd (s : List DispatchListener) (cb : DispatchListener) : List DispatchListener :=
  if s.any (fun l => l.id == cb.id) then s else s ++ [cb]

/-- JavaScript `Set.prototype.delete`: remove the element with the same
identity, reporting whether it was found. -/
def setDelete (s : List DispatchListener) (cb : DispatchListener) :
    List DispatchListener × Bool :=
  (s.filter (fun l => l.id ≠ cb.id), s.any (fun l => l.id == cb.id))

/-- `bind(event, cb)`: `this.#callbacks.get(event)!.add(cb)`; `none` models
the throw when the key is absent (after `disconnect()` cleared the map). -/
def bind (st : ObserverState) (t : MotionType) (cb : DispatchListener) :
    Option ObserverState :=
  match st.callbacks t with
  | none => none
  | some s =>
    some { st with callbacks := fun u => if u = t then some (setAdd s cb) else st.callbacks u }

/-- `addEventListener` delegates to `bind`. -/
def addEventListener (st : ObserverState) (t : MotionType) (cb : DispatchListener) :
    Option ObserverState :=
  bind st t cb

/-- The source's `on` alias delegates to `bind` (named `on'` here because
`on` is reserved notation in Lean). -/
def on' (st : ObserverState) (t : MotionType) (cb : DispatchListener) :
    Option ObserverState :=
  bind st t cb

/-- `once(event, cb)`: `this.#onceCallbacks.get(event)!.add(cb)`. -/
def once (st : ObserverState) (t : MotionType) (cb : DispatchListener) :
    Option ObserverState :=
  match st.onceCallbacks t with
  | none => none
  | some s =>
    some { st with
            onceCallbacks := fun u => if u = t then some (setAdd s cb) else st.onceCallbacks u }

/-- `unbind(event, cb)`:
`callbacks.get(event)!.delete(cb) || onceCallbacks.get(event)!.delete(cb)`.
The short-circuit means the one-shot map is only consulted (and can only
throw) when the persistent delete found nothing. -/
def unbind (st : ObserverState) (t : MotionType) (cb : DispatchListener) :
    Option (ObserverState × Bool) :=
  match st.callbacks t with
  | none => none
  | some s =>
    match setDelete s cb with
    | (s1, true) =>
      some ({ st with callbacks := fun u => if u = t then some s1 else st.callbacks u }, true)
    | (_, false) =>
      match st.onceCallbacks t with
      | none => none
      | some os =>
        match setDelete os cb with
        | (os1, found) =>
          some ({ st with
                   onceCallbacks := fun u => if u = t then some os1 else st.onceCallbacks u },
                found)

/-- `removeEventListener` delegates to `unbind`. -/
def removeEventListener (st : ObserverState) (t : MotionType) (cb : DispatchListener) :
    Option (ObserverState × Bool) :=
  unbind st t cb

/-- `off` delegates to `unbind`. -/
def off (st : ObserverState) (t : MotionType) (cb : DispatchListener) :
    Option (ObserverState × Bool) :=
  unbind st t cb

/-! ### Raw event handlers

Each handler is modelled as a function from the pre-state and the raw event
to the post-state together with the event payload(s) it hands to
`#triggerCallbacks` (`none` / `[]` when no dispatch happens).  `Date.now()`
is the explicit `now` parameter. -/

/-- Shared tail of `#handleOrientation` (after the capability chain falls
through): synthesize the event, record the last-known orientation, and
dispatch when orientation is observed. -/
def emitOrientation (st : ObserverState) (e : RawOrientation) :
    ObserverState × Option OrientationDetail :=
  let event := orientationEventFromDevice e
  let st1 := { st with lastOrientationQuat := some event.quat }
  if MotionType.orientation ∈ st1.observed then (st1, some event) else (st1, none)

/-- `#handleOrientation`: on the first relative event start the grace
window and return; during the window return; if the deadline has passed,
resolve the absolute capability to `false` and fall through; if the
capability resolved `true`, return; if it resolved `false`, fall through
to synthesis and dispatch. -/
def handleOrientation (st : ObserverState) (now : ℤ) (e : RawOrientation) :
    ObserverState × Option OrientationDetail :=
  match st.hasAbsoluteOrientation with
  | .null =>
    ({ st with hasAbsoluteOrientation := .num (now + MEASUREMENT_EPSILON) }, none)
  | .num d =>
    if d < now then
      emitOrientation { st with hasAbsoluteOrientation := .bool false } e
    else (st, none)
  | .bool true => (st, none)
  | .bool false => emitOrientation st e

/-- `#handleOrientationAbsolute`: if the capability is not already `true`,
set it to `true` and remove the relative `deviceorientation` listener; then
if orientation is observed, synthesize, record last-known orientation, and
dispatch. -/
def handleOrientationAbsolute (st : ObserverState) (e : RawOrientation) :
    ObserverState × Option OrientationDetail :=
  let st1 :=
    if st.hasAbsoluteOrientation ≠ .bool true then
      { st with hasAbsoluteOrientation := .bool true
                attached := { st.attached with orientation := false } }
    else st
  if MotionType.orientation ∈ st1.observed then
    let event := orientationEventFromDevice e
    ({ st1 with lastOrientationQuat := some event.quat }, some event)
  else (st1, none)

/-- `#handleMotion`: while the gravity-exclusion capability is unresolved,
a non-zero gravity-exclusive reading resolves it to `true`, otherwise the
grace-window bookkeeping runs — in every unresolved case the event itself
is not dispatched.  Once resolved `true`, direct events are dispatched for
the observed acceleration types; once resolved `false`, the
gravity-inclusive event is dispatched if observed, and a derived
gravity-exclusive event is dispatched when acceleration is observed and a
last-known orientation exists. -/
def handleMotion (isIOS : Bool) (st : ObserverState) (now : ℤ) (e : RawMotion) :
    ObserverState × List (MotionType × AccelerationDetail) :=
  match st.hasAccelerationWithoutGravity with
  | .bool true =>
    (st,
      (if MotionType.acceleration ∈ st.observed then
        [(MotionType.acceleration, accelerationEventFromDevice isIOS e)]
      else []) ++
      (if MotionType.accelerationInclGravity ∈ st.observed then
        [(MotionType.accelerationInclGravity, accelerationInclGravityEventFromDevice isIOS e)]
      else []))
  | .bool false =>
    let sendAdjustedEvent :=
      decide (MotionType.acceleration ∈ st.observed) && st.lastOrientationQuat.isSome
    if MotionType.accelerationInclGravity ∈ st.observed ∨ sendAdjustedEvent = true then
      let event := accelerationInclGravityEventFromDevice isIOS e
      (st,
        (if MotionType.accelerationInclGravity ∈ st.observed then
          [(MotionType.accelerationInclGravity, event)]
        else []) ++
        (match st.lastOrientationQuat, decide (MotionType.acceleration ∈ st.observed) with
         | some q, true =>
           [(MotionType.acceleration,
             accelerationEventFromAccInclGravityEventAndOrientationQuat event q)]
         | _, _ => []))
    else (st, [])
  | unresolved =>
    if nget e.acceleration NullableVec3.x 0 ≠ 0 ∨
        nget e.acceleration NullableVec3.y 0 ≠ 0 ∨
        nget e.acceleration NullableVec3.z 0 ≠ 0 then
      ({ st with hasAccelerationWithoutGravity := .bool true }, [])
    else
      match unresolved with
      | .null =>
        ({ st with hasAccelerationWithoutGravity := .num (now + MEASUREMENT_EPSILON) }, [])
      | .num d =>
        if d < now then
          ({ st with hasAccelerationWithoutGravity := .bool false }, [])
        else (st, [])
      | .bool _ => (st, [])

/-! ### Wiring and lifecycle -/

/-- All motion types, `Object.values(MotionType)` in declaration order. -/
def allMotionTypes : List MotionType :=
  [.orientation, .accelerationInclGravity, .acceleration]

/-- The native listeners `#addListeners` computes from the observed set:
orientation needs both orientation streams, gravity-inclusive acceleration
needs motion, plain acceleration needs motion and relative orientation. -/
def requiredNativeEvents (observed : List MotionType) : NativeListeners :=
  { orientation :=
      decide (MotionType.orientation ∈ observed) ||
      decide (MotionType.acceleration ∈ observed)
    orientationAbsolute := decide (MotionType.orientation ∈ observed)
    motion :=
      decide (MotionType.accelerationInclGravity ∈ observed) ||
      decide (MotionType.acceleration ∈ observed) }

/-- `#addListeners`: removes all native listeners then attaches exactly the
required set. -/
def addListeners (st : ObserverState) : ObserverState :=
  { st with attached := requiredNativeEvents st.observed }

/-- JavaScript `Set.prototype.add` on the observed set. -/
def observedAdd (l : List MotionType) (t : MotionType) : List MotionType :=
  if t ∈ l then l else l ++ [t]

/-- `observe(filter)`: add the filter's types (or all types) to the
observed set, then await the permission request — modelled by the `granted`
oracle — and only on success reconcile the native listeners.  A rejected
permission promise surfaces as `Except.error` carrying the state as the
method leaves it. -/
def observe (st : ObserverState) (filter : Option (List MotionType)) (granted : Bool) :
    Except ObserverState ObserverState :=
  let filterArr := filter.getD allMotionTypes
  let st1 :=
    if filterArr.length ≠ 0 then
      { st with observed := filterArr.foldl observedAdd st.observed }
    else st
  if granted then .ok (addListeners st1) else .error st1

/-- `unobserve(filter)`: delete the filter's types (or all types) from the
observed set and reconcile the native listeners. -/
def unobserve (st : ObserverState) (filter : Option (List MotionType)) : ObserverState :=
  let filterArr := filter.getD allMotionTypes
  let st1 :=
    if filterArr.length ≠ 0 then
      { st with observed := filterArr.foldl (fun l t => l.erase t) st.observed }
    else st
  addListeners st1

/-- `disconnect()`: clear the observed set, remove the native listeners,
clear both callback `Map`s (removing every key, not emptying the per-type
sets), and clear the last-known orientation.  The capability flags are not
reset. -/
def disconnect (st : ObserverState) : ObserverState :=
  { st with observed := []
            attached := ⟨false, false, false⟩
            callbacks := fun _ => none
            onceCallbacks := fun _ => none
            lastOrientationQuat := none }

/-! ### Session traces of relative-orientation events -/

/-- Delivery of one raw relative-orientation event by the platform: the
handler only runs while the `deviceorientation` listener is attached. -/
def stepRelative (st : ObserverState) (now : ℤ) (e : RawOrientation) :
    ObserverState × Option OrientationDetail :=
  if st.attached.orientation then handleOrientation st now e else (st, none)

/-- Delivery of a timed sequence of raw relative-orientation events,
collecting every orientation payload handed to the dispatcher. -/
def runRelatives (st : ObserverState) :
    List (ℤ × RawOrientation) → ObserverState × List OrientationDetail
  | [] => (st, [])
  | (t, e) :: rest =>
    let p := stepRelative st t e
    let q := runRelatives p.1 rest
    (q.1, p.2.toList ++ q.2)

/-- Timing hypothesis of the grace-window scenarios: every event after the
first arrives no later than the deadline the first event started. -/
def withinGraceOfHead : List (ℤ × RawOrientation) → Prop
  | [] => True
  | (t0, _) :: rest => ∀ p ∈ rest, p.1 ≤ t0 + MEASUREMENT_EPSILON

end

/-! ### Unit-norm invariant of the quaternion production paths (C8) -/

/-- Squared norm of the Euler-derived quaternion, in exact real arithmetic. -/
theorem normSq_quatFromEulerYXZ (v : Vec3) : normSq (quatFromEulerYXZ v) = 1 := by
  have h1 := Real.sin_sq_add_cos_sq (v.x / 2)
  have h2 := Real.sin_sq_add_cos_sq (v.y / 2)
  have h3 := Real.sin_sq_add_cos_sq (v.z / 2)
  simp only [normSq, quatFromEulerYXZ]
  linear_combination
    ((Real.sin (v.y / 2) ^ 2 + Real.cos (v.y / 2) ^ 2) *
      (Real.sin (v.z / 2) ^ 2 + Real.cos (v.z / 2) ^ 2)) * h1 +
    (Real.sin (v.z / 2) ^ 2 + Real.cos (v.z / 2) ^ 2) * h2 + h3

/-- The squared norm of a Hamilton product is the product of the squared
norms (Euler's four-square identity, specialised to `quatMultiply`). -/
theorem normSq_quatMultiply (a b : Quat) :
    normSq (quatMultiply a b) = normSq a * normSq b := by
  simp only [normSq, quatMultiply]
  ring

/-- C8: for every Euler angle triple, in exact real arithmetic, the
quaternion produced by `quatFromEulerYXZ` has squared-component sum equal
to 1, and the full orientation production path `orientationToQuat`
(Euler conversion followed by multiplication with the fixed 90-degree
correction quaternion) also yields a quaternion of squared-component
sum 1. -/
theorem quat_production_paths_unit_norm (x y z alpha beta gamma : ℝ) :
    normSq (quatFromEulerYXZ ⟨x, y, z⟩) = 1 ∧
    normSq (orientationToQuat alpha beta gamma) = 1 := by
  constructor
  · exact normSq_quatFromEulerYXZ ⟨x, y, z⟩
  · have hc : normSq ⟨-Real.sqrt 0.5, 0, 0, Real.sqrt 0.5⟩ = 1 := by
      have h05 : (0.5 : ℝ) = 1 / 2 := by norm_num
      have hs : Real.sqrt 0.5 ^ 2 = 0.5 := Real.sq_sqrt (by norm_num)
      simp only [normSq]
      nlinarith [hs]
    rw [orientationToQuat, normSq_quatMultiply,
      normSq_quatFromEulerYXZ ⟨beta, alpha, -gamma⟩, hc, one_mul]

/-! ### The gravity-derivation scenario (C4)

The spec requires: a gravity-inclusive reading of `(0, 9.80665, 0)` together
with a last-known-orientation of identity must yield a derived
acceleration-excluding-gravity vector of approximately `(0, 0, 0)`.
The code instead rotates the reference vector `(0, -GRAVITY, 0)` by the
orientation quaternion directly (rather than producing the gravity reaction
seen in the device frame, which for the identity orientation is
`(0, +GRAVITY, 0)`), so at this input it subtracts `(0, -9.80665, 0)` and
returns `(0, 2 * 9.80665, 0)` — a vector of magnitude twice gravity, not
approximately zero. -/

/-- C4: evaluating the derived-acceleration path at the spec's scenario —
gravity-inclusive acceleration `(0, 9.80665, 0)` and identity last-known
orientation — the code produces the vector `(0, 2 * 9.80665, 0)` (which is
not approximately `(0,0,0)`: its y component is 19.6133) with the
`inaccurate` flag set to `true`. -/
theorem derived_acceleration_identity_scenario :
    (accelerationEventFromAccInclGravityEventAndOrientationQuat
        ⟨⟨0, 9.80665, 0⟩, 16, false⟩ ⟨0, 0, 0, 1⟩).acc = ⟨0, 2 * 9.80665, 0⟩ ∧
    (accelerationEventFromAccInclGravityEventAndOrientationQuat
        ⟨⟨0, 9.80665, 0⟩, 16, false⟩ ⟨0, 0, 0, 1⟩).inaccurate = true ∧
    ((2 : ℝ) * 9.80665 ≠ 0) := by
  refine ⟨?_, rfl, by norm_num⟩
  simp only [accelerationEventFromAccInclGravityEventAndOrientationQuat,
    vecSub, vecApplyQuat, GRAVITY]
  norm_num

/-! ### Dispatch ordering and propagation-stop (C1, C3) -/

/-- A listener loop over `pre ++ stopper :: post` where every listener of
`pre` leaves the propagation-stop flag unset and `stopper` sets it: the loop
invokes exactly `pre` then `stopper`, in order, and is left early. -/
theorem runLoop_stops_at_stopper (pre post : List DispatchListener)
    (stopper : DispatchListener)
    (hpre : ∀ l ∈ pre, l.run false = false) (hstop : stopper.run false = true) :
    runLoop (pre ++ stopper :: post) false
      = (pre.map DispatchListener.id ++ [stopper.id], true, true) := by
  induction pre with
  | nil => simp [runLoop, hstop]
  | cons l rest ih =>
    have hl : l.run false = false := hpre l (by simp)
    have hrest : ∀ m ∈ rest, m.run false = false := fun m hm => hpre m (by simp [hm])
    simp [runLoop, hl, ih hrest]

/-- C1: in a dispatch pass starting with the propagation-stop flag unset,
persistent listeners run in insertion order; as soon as one of them sets the
flag, the pass aborts — the remaining persistent listeners and every
one-shot listener are skipped (the invoked list is exactly the persistent
prefix through the stopper, and the one-shot collection is untouched).  In
particular, with persistent listeners A, B, C where B stops propagation,
exactly A and B run, C never runs and no one-shot listener runs. -/
theorem dispatch_propagation_stop_skips_rest
    (pre post onceList : List DispatchListener) (stopper : DispatchListener)
    (hpre : ∀ l ∈ pre, l.run false = false) (hstop : stopper.run false = true) :
    dispatchPass (pre ++ stopper :: post) onceList false
      = ⟨pre.map DispatchListener.id ++ [stopper.id], onceList, true⟩ := by
  rw [dispatchPass, runLoop_stops_at_stopper pre post stopper hpre hstop]

/-- Witness for C1: persistent listeners A (id 0), B (id 1, stops
propagation), C (id 2) and one-shot D (id 3); the pass invokes exactly
ids 0 and 1. -/
theorem dispatch_propagation_stop_skips_rest_witness :
    dispatchPass [⟨0, fun b => b⟩, ⟨1, fun _ => true⟩, ⟨2, fun b => b⟩]
        [⟨3, fun b => b⟩] false
      = ⟨[0, 1], [⟨3, fun b => b⟩], true⟩ := by
  have h := dispatch_propagation_stop_skips_rest
    [⟨0, fun b => b⟩] [⟨2, fun b => b⟩] [⟨3, fun b => b⟩] ⟨1, fun _ => true⟩
    (by intro l hl; rw [List.mem_singleton] at hl; subst hl; rfl) rfl
  simpa using h

/-- Counterexample for C3: a one-shot listener (id 2) is not discarded by a
dispatch pass that a persistent listener (id 1) aborts with
propagation-stop — the pass invokes only listener 1 and leaves the one-shot
collection holding listener 2, contradicting "discarded after at most one
dispatch attempt ... including a pass aborted by propagation-stop". -/
theorem once_survives_persistent_phase_abort :
    (dispatchPass [⟨1, fun _ => true⟩] [⟨2, fun b => b⟩] false).onceAfter.map
        DispatchListener.id = [2] ∧
    (dispatchPass [⟨1, fun _ => true⟩] [⟨2, fun b => b⟩] false).invoked = [1] := by
  constructor <;> rfl

/-- C3 (amended): a one-shot listener is discarded after at most one
dispatch attempt that reaches the one-shot phase — whenever the persistent
loop completes without a propagation-stop abort, the one-shot collection is
cleared whether or not its listeners ran (a pass aborted during the
persistent phase instead leaves the collection untouched); a second dispatch
then behaves as if the one-shot collection were empty, without any explicit
unsubscription. -/
theorem once_cleared_when_pass_reaches_once_phase
    (persistent onceList : List DispatchListener) (b : Bool)
    (h : (runLoop persistent b).2.2 = false) :
    (dispatchPass persistent onceList b).onceAfter = [] ∧
    ∀ b2, dispatchPass persistent (dispatchPass persistent onceList b).onceAfter b2
        = dispatchPass persistent [] b2 := by
  have key : (dispatchPass persistent onceList b).onceAfter = [] := by
    rcases hr : runLoop persistent b with ⟨pids, b1, s⟩
    rw [hr] at h
    simp only at h
    subst h
    rcases hro : runLoop onceList b1 with ⟨oids, b2, s2⟩
    simp [dispatchPass, hr, hro]
  exact ⟨key, fun b2 => by rw [key]⟩

/-- Witness for C3 (amended): one one-shot listener (id 7), two dispatch
passes with no propagation-stop: the listener is invoked on the first pass,
the collection is cleared, and the second pass invokes nothing. -/
theorem once_cleared_when_pass_reaches_once_phase_witness :
    (dispatchPass [] [⟨7, fun b => b⟩] false).invoked = [7] ∧
    (dispatchPass [] [⟨7, fun b => b⟩] false).onceAfter = [] ∧
    (dispatchPass [] (dispatchPass [] [⟨7, fun b => b⟩] false).onceAfter false).invoked
        = [] := by
  refine ⟨rfl, ?_, ?_⟩
  · exact (once_cleared_when_pass_reaches_once_phase [] [⟨7, fun b => b⟩] false rfl).1
  · rw [(once_cleared_when_pass_reaches_once_phase [] [⟨7, fun b => b⟩] false rfl).2 false]
    rfl

/-! ### Capability-flag stability (C2) -/

/-- Counterexample for C2: a concrete session trace — relative orientation
events at times 0 and 21 from a fresh observer resolve the
absolute-orientation capability to `false` (the 20ms grace window elapsed),
yet a late absolute-orientation event then moves the already-resolved flag
to `true`, so the flag does change after resolving to `false`. -/
theorem absolute_flag_flips_after_false_resolution :
    ((handleOrientation
        (handleOrientation initialState 0
          (⟨none, none, none, false, none, none⟩ : RawOrientation)).1
        21 (⟨none, none, none, false, none, none⟩ : RawOrientation)).1).hasAbsoluteOrientation
      = .bool false ∧
    (handleOrientationAbsolute
        ((handleOrientation
          (handleOrientation initialState 0
            (⟨none, none, none, false, none, none⟩ : RawOrientation)).1
          21 (⟨none, none, none, false, none, none⟩ : RawOrientation)).1)
        (⟨none, none, none, true, none, none⟩ : RawOrientation)).1.hasAbsoluteOrientation
      = .bool true := by
  constructor <;> rfl

/-- C2 (amended): once a capability flag is resolved it never returns to the
unresolved state, and with one exception it never changes at all: the
gravity-exclusion flag, once boolean, is preserved by every handler, and an
absolute-orientation flag resolved `true` is preserved by both orientation
handlers; an absolute-orientation flag resolved `false` is preserved by
relative-orientation events, but a late absolute-orientation event moves it
to `true` (never back to unknown). -/
theorem capability_flags_resolution_stability :
    (∀ (st : ObserverState) (now : ℤ) (e : RawOrientation),
      st.hasAbsoluteOrientation = .bool true →
      (handleOrientation st now e).1.hasAbsoluteOrientation = .bool true ∧
      (handleOrientationAbsolute st e).1.hasAbsoluteOrientation = .bool true) ∧
    (∀ (st : ObserverState) (now : ℤ) (e : RawOrientation),
      st.hasAbsoluteOrientation = .bool false →
      (handleOrientation st now e).1.hasAbsoluteOrientation = .bool false ∧
      (handleOrientationAbsolute st e).1.hasAbsoluteOrientation = .bool true) ∧
    (∀ (isIOS : Bool) (st : ObserverState) (now : ℤ) (e : RawMotion)
        (eo : RawOrientation) (b : Bool),
      st.hasAccelerationWithoutGravity = .bool b →
      (handleMotion isIOS st now e).1.hasAccelerationWithoutGravity = .bool b ∧
      (handleOrientation st now eo).1.hasAccelerationWithoutGravity = .bool b ∧
      (handleOrientationAbsolute st eo).1.hasAccelerationWithoutGravity = .bool b) := by
  refine ⟨?_, ?_, ?_⟩
  · intro st now e h
    constructor
    · simp [handleOrientation, h]
    · have hne : ¬(st.hasAbsoluteOrientation ≠ NumBool.bool true) := by rw [h]; simp
      simp only [handleOrientationAbsolute, if_neg hne]
      split <;> simp [h]
  · intro st now e h
    constructor
    · simp only [handleOrientation, h, emitOrientation]
      split <;> simp [h]
    · have hne : st.hasAbsoluteOrientation ≠ NumBool.bool true := by rw [h]; simp
      simp only [handleOrientationAbsolute, if_pos hne]
      split <;> simp
  · intro isIOS st now e eo b h
    refine ⟨?_, ?_, ?_⟩
    · cases b <;> simp only [handleMotion, h]
      all_goals (split <;> simp [h])
    · cases hb : st.hasAbsoluteOrientation with
      | null => simp [handleOrientation, hb, h]
      | num d =>
        simp only [handleOrientation, hb, emitOrientation]
        split <;> (try split) <;> simp [h]
      | bool b2 =>
        cases b2 <;> simp only [handleOrientation, hb, emitOrientation] <;>
          (try split) <;> simp [h]
    · simp only [handleOrientationAbsolute]
      split <;> split <;> simp [h]

/-- Witness for C2 (amended): concrete states with each flag resolved,
showing preservation (and the late-absolute exception) at those inputs. -/
theorem capability_flags_resolution_stability_witness :
    (handleOrientation { initialState with hasAbsoluteOrientation := .bool true } 5
        (⟨none, none, none, false, none, none⟩ : RawOrientation)).1.hasAbsoluteOrientation
      = .bool true ∧
    (handleOrientationAbsolute { initialState with hasAbsoluteOrientation := .bool false }
        (⟨none, none, none, true, none, none⟩ : RawOrientation)).1.hasAbsoluteOrientation
      = .bool true ∧
    (handleMotion false { initialState with hasAccelerationWithoutGravity := .bool true } 5
        (⟨none, none, 16⟩ : RawMotion)).1.hasAccelerationWithoutGravity = .bool true := by
  refine ⟨(capability_flags_resolution_stability.1 _ 5 _ rfl).1,
    (capability_flags_resolution_stability.2.1 _ 5
      (⟨none, none, none, true, none, none⟩ : RawOrientation) rfl).2,
    (capability_flags_resolution_stability.2.2 false _ 5 _
      (⟨none, none, none, false, none, none⟩ : RawOrientation) true rfl).1⟩

/-! ### Absolute-orientation capability resolution (C5, C6) -/

/-- While the grace window has not elapsed (every event time is at most the
deadline), relative-orientation events neither change the state nor dispatch
anything. -/
theorem runRelatives_inGrace (rest : List (ℤ × RawOrientation)) :
    ∀ (st : ObserverState) (d : ℤ), st.hasAbsoluteOrientation = .num d →
      (∀ p ∈ rest, p.1 ≤ d) → runRelatives st rest = (st, []) := by
  induction rest with
  | nil => intro st d _ _; rfl
  | cons p rest ih =>
    intro st d h ht
    obtain ⟨t, e⟩ := p
    have htle : ¬ d < t := not_lt.mpr (ht (t, e) (by simp))
    have hrest : ∀ q ∈ rest, q.1 ≤ d := fun q hq => ht q (by simp [hq])
    have hstep : stepRelative st t e = (st, none) := by
      by_cases ha : st.attached.orientation
      · simp [stepRelative, ha, handleOrientation, h, htle]
      · simp [stepRelative, ha]
    simp [runRelatives, hstep, ih st d h hrest]

/-- With the relative `deviceorientation` listener detached, relative events
reach no handler: the state is unchanged and nothing is dispatched. -/
theorem runRelatives_detached (l : List (ℤ × RawOrientation)) :
    ∀ st : ObserverState, st.attached.orientation = false →
      runRelatives st l = (st, []) := by
  induction l with
  | nil => intro st _; rfl
  | cons p rest ih =>
    intro st h
    obtain ⟨t, e⟩ := p
    simp [runRelatives, stepRelative, h, ih st h]

/-- From a fresh session, a first relative event starts the grace window and
later relative events inside the window leave the state otherwise unchanged,
with no dispatch at all. -/
theorem runRelatives_grace_from_null (st : ObserverState) (t0 : ℤ)
    (e0 : RawOrientation) (rest : List (ℤ × RawOrientation))
    (hflag : st.hasAbsoluteOrientation = .null)
    (hatt : st.attached.orientation = true)
    (hrest : ∀ p ∈ rest, p.1 ≤ t0 + MEASUREMENT_EPSILON) :
    runRelatives st ((t0, e0) :: rest)
      = ({ st with hasAbsoluteOrientation := .num (t0 + MEASUREMENT_EPSILON) }, []) := by
  have hstep : stepRelative st t0 e0
      = ({ st with hasAbsoluteOrientation := .num (t0 + MEASUREMENT_EPSILON) }, none) := by
    simp [stepRelative, hatt, handleOrientation, hflag]
  have hrec := runRelatives_inGrace rest
    { st with hasAbsoluteOrientation := .num (t0 + MEASUREMENT_EPSILON) }
    (t0 + MEASUREMENT_EPSILON) rfl hrest
  simp [runRelatives, hstep, hrec]

/-- An absolute-orientation event on a state whose capability is not yet
`true` resolves the capability to `true` and tears the relative listener
down. -/
theorem handleOrientationAbsolute_resolves (st : ObserverState) (e : RawOrientation)
    (h : st.hasAbsoluteOrientation ≠ .bool true) :
    (handleOrientationAbsolute st e).1.hasAbsoluteOrientation = .bool true ∧
    (handleOrientationAbsolute st e).1.attached.orientation = false := by
  simp only [handleOrientationAbsolute, if_pos h]
  split <;> simp

/-- C5: in a session where any number of relative-orientation events arrive
within the grace window and then one absolute-orientation event arrives, the
absolute capability resolves to `true`, the relative raw listener is torn
down, and afterwards no relative-orientation event changes the state or
produces a dispatched orientation event (so the resolution is permanent). -/
theorem absolute_event_resolves_true_and_tears_down
    (st0 : ObserverState) (eAbs : RawOrientation)
    (rels after : List (ℤ × RawOrientation))
    (hflag : st0.hasAbsoluteOrientation = .null)
    (hatt : st0.attached.orientation = true)
    (hrels : withinGraceOfHead rels) :
    (runRelatives st0 rels).2 = [] ∧
    (handleOrientationAbsolute (runRelatives st0 rels).1 eAbs).1.hasAbsoluteOrientation
        = .bool true ∧
    (handleOrientationAbsolute (runRelatives st0 rels).1 eAbs).1.attached.orientation
        = false ∧
    runRelatives (handleOrientationAbsolute (runRelatives st0 rels).1 eAbs).1 after
      = ((handleOrientationAbsolute (runRelatives st0 rels).1 eAbs).1, []) := by
  have hmain : runRelatives st0 rels = ((runRelatives st0 rels).1, []) ∧
      (runRelatives st0 rels).1.hasAbsoluteOrientation ≠ .bool true := by
    match rels with
    | [] =>
      exact ⟨rfl, by
        show st0.hasAbsoluteOrientation ≠ NumBool.bool true
        rw [hflag]; simp⟩
    | (t0, e0) :: rest =>
      have hg := runRelatives_grace_from_null st0 t0 e0 rest hflag hatt hrels
      rw [hg]
      exact ⟨rfl, by simp⟩
  obtain ⟨hres, hne⟩ := hmain
  have habs := handleOrientationAbsolute_resolves (runRelatives st0 rels).1 eAbs hne
  refine ⟨?_, habs.1, habs.2, runRelatives_detached after _ habs.2⟩
  rw [hres]

/-- Witness for C5: two in-window relative events then an absolute event;
the capability is `true`, the relative listener is detached, and a later
relative event dispatches nothing. -/
theorem absolute_event_resolves_true_and_tears_down_witness :
    (runRelatives
        { initialState with observed := [MotionType.orientation],
                            attached := ⟨true, true, false⟩ }
        [(100, (⟨none, none, none, false, none, none⟩ : RawOrientation)),
         (110, (⟨none, none, none, false, none, none⟩ : RawOrientation))]).2 = [] ∧
    (handleOrientationAbsolute
        (runRelatives
          { initialState with observed := [MotionType.orientation],
                              attached := ⟨true, true, false⟩ }
          [(100, (⟨none, none, none, false, none, none⟩ : RawOrientation)),
           (110, (⟨none, none, none, false, none, none⟩ : RawOrientation))]).1
        (⟨none, none, none, true, none, none⟩ : RawOrientation)).1.hasAbsoluteOrientation
      = .bool true ∧
    runRelatives
        (handleOrientationAbsolute
          (runRelatives
            { initialState with observed := [MotionType.orientation],
                                attached := ⟨true, true, false⟩ }
            [(100, (⟨none, none, none, false, none, none⟩ : RawOrientation)),
             (110, (⟨none, none, none, false, none, none⟩ : RawOrientation))]).1
          (⟨none, none, none, true, none, none⟩ : RawOrientation)).1
        [(200, (⟨none, none, none, false, none, none⟩ : RawOrientation))]
      = ((handleOrientationAbsolute
          (runRelatives
            { initialState with observed := [MotionType.orientation],
                                attached := ⟨true, true, false⟩ }
            [(100, (⟨none, none, none, false, none, none⟩ : RawOrientation)),
             (110, (⟨none, none, none, false, none, none⟩ : RawOrientation))]).1
          (⟨none, none, none, true, none, none⟩ : RawOrientation)).1, []) := by
  have h := absolute_event_resolves_true_and_tears_down
    { initialState with observed := [MotionType.orientation],
                        attached := ⟨true, true, false⟩ }
    (⟨none, none, none, true, none, none⟩ : RawOrientation)
    [(100, (⟨none, none, none, false, none, none⟩ : RawOrientation)),
     (110, (⟨none, none, none, false, none, none⟩ : RawOrientation))]
    [(200, (⟨none, none, none, false, none, none⟩ : RawOrientation))]
    rfl rfl
    (by
      intro p hp
      rw [List.mem_singleton] at hp
      subst hp
      decide)
  exact ⟨h.1, h.2.1, h.2.2.2⟩

/-- Relative-orientation events on a session whose absolute capability
resolved `false`, with the listener attached and orientation observed, are
each synthesized and dispatched; the capability, the wiring and the observed
set are unchanged. -/
theorem runRelatives_resolved_false (l : List (ℤ × RawOrientation)) :
    ∀ st : ObserverState, st.hasAbsoluteOrientation = .bool false →
      st.attached.orientation = true → MotionType.orientation ∈ st.observed →
      (runRelatives st l).2 = l.map (fun p => orientationEventFromDevice p.2) ∧
      (runRelatives st l).1.hasAbsoluteOrientation = .bool false ∧
      (runRelatives st l).1.attached.orientation = true ∧
      (runRelatives st l).1.observed = st.observed := by
  induction l with
  | nil => intro st h1 h2 _; exact ⟨rfl, h1, h2, rfl⟩
  | cons p rest ih =>
    intro st h1 h2 h3
    obtain ⟨t, e⟩ := p
    have hstep : stepRelative st t e
        = ({ st with lastOrientationQuat := some (orientationEventFromDevice e).quat },
           some (orientationEventFromDevice e)) := by
      simp [stepRelative, h2, handleOrientation, h1, emitOrientation, h3]
    have ihres := ih
      { st with lastOrientationQuat := some (orientationEventFromDevice e).quat } h1 h2 h3
    refine ⟨?_, ?_, ?_, ?_⟩ <;>
      simp [runRelatives, hstep, ihres.1, ihres.2.1, ihres.2.2.1, ihres.2.2.2]

/-- C6: in a session receiving only relative-orientation events where the
grace window elapses with no absolute event, the events inside the window
dispatch nothing; a relative event arriving after the deadline resolves the
absolute capability to `false` and is itself dispatched to orientation
subscribers; and every subsequent relative event is dispatched as well. -/
theorem relative_timeout_resolves_false_and_dispatches
    (st0 : ObserverState) (t0 t : ℤ) (e0 e : RawOrientation)
    (rest after : List (ℤ × RawOrientation))
    (hflag : st0.hasAbsoluteOrientation = .null)
    (hatt : st0.attached.orientation = true)
    (hobs : MotionType.orientation ∈ st0.observed)
    (hrest : ∀ p ∈ rest, p.1 ≤ t0 + MEASUREMENT_EPSILON)
    (hlate : t0 + MEASUREMENT_EPSILON < t) :
    (runRelatives st0 ((t0, e0) :: rest)).2 = [] ∧
    (stepRelative (runRelatives st0 ((t0, e0) :: rest)).1 t e).1.hasAbsoluteOrientation
        = .bool false ∧
    (stepRelative (runRelatives st0 ((t0, e0) :: rest)).1 t e).2
        = some (orientationEventFromDevice e) ∧
    (runRelatives (stepRelative (runRelatives st0 ((t0, e0) :: rest)).1 t e).1 after).2
        = after.map (fun p => orientationEventFromDevice p.2) := by
  have hg := runRelatives_grace_from_null st0 t0 e0 rest hflag hatt hrest
  rw [hg]
  have hstep : stepRelative
      { st0 with hasAbsoluteOrientation := NumBool.num (t0 + MEASUREMENT_EPSILON) } t e
      = ({ st0 with hasAbsoluteOrientation := .bool false,
                    lastOrientationQuat := some (orientationEventFromDevice e).quat },
         some (orientationEventFromDevice e)) := by
    simp [stepRelative, hatt, handleOrientation, hlate, emitOrientation, hobs]
  rw [hstep]
  have hcont := runRelatives_resolved_false after
    { st0 with hasAbsoluteOrientation := .bool false,
               lastOrientationQuat := some (orientationEventFromDevice e).quat }
    rfl hatt hobs
  exact ⟨rfl, rfl, rfl, hcont.1⟩

/-- Witness for C6: one relative event at time 100, the deadline 120 passes,
a relative event at 121 resolves the capability to `false` and dispatches,
and an event at 130 dispatches as well. -/
theorem relative_timeout_resolves_false_and_dispatches_witness :
    (runRelatives
        { initialState with observed := [MotionType.orientation],
                            attached := ⟨true, true, false⟩ }
        [(100, (⟨none, none, none, false, none, none⟩ : RawOrientation))]).2 = [] ∧
    (stepRelative
        (runRelatives
          { initialState with observed := [MotionType.orientation],
                              attached := ⟨true, true, false⟩ }
          [(100, (⟨none, none, none, false, none, none⟩ : RawOrientation))]).1
        121 (⟨none, none, none, false, none, none⟩ : RawOrientation)).1.hasAbsoluteOrientation
      = .bool false ∧
    (stepRelative
        (runRelatives
          { initialState with observed := [MotionType.orientation],
                              attached := ⟨true, true, false⟩ }
          [(100, (⟨none, none, none, false, none, none⟩ : RawOrientation))]).1
        121 (⟨none, none, none, false, none, none⟩ : RawOrientation)).2
      = some (orientationEventFromDevice
          (⟨none, none, none, false, none, none⟩ : RawOrientation)) ∧
    (runRelatives
        (stepRelative
          (runRelatives
            { initialState with observed := [MotionType.orientation],
                                attached := ⟨true, true, false⟩ }
            [(100, (⟨none, none, none, false, none, none⟩ : RawOrientation))]).1
          121 (⟨none, none, none, false, none, none⟩ : RawOrientation)).1
        [(130, (⟨none, none, none, false, none, none⟩ : RawOrientation))]).2
      = [orientationEventFromDevice
          (⟨none, none, none, false, none, none⟩ : RawOrientation)] := by
  have h := relative_timeout_resolves_false_and_dispatches
    { initialState with observed := [MotionType.orientation],
                        attached := ⟨true, true, false⟩ }
    100 121
    (⟨none, none, none, false, none, none⟩ : RawOrientation)
    (⟨none, none, none, false, none, none⟩ : RawOrientation)
    [] [(130, (⟨none, none, none, false, none, none⟩ : RawOrientation))]
    rfl rfl (by decide)
    (by intro p hp; exact absurd hp (List.not_mem_nil p))
    (by decide)
  exact ⟨h.1, h.2.1, h.2.2.1, by simpa using h.2.2.2⟩

/-! ### Derived acceleration withheld without orientation (C7) -/

/-- C7: when the derived acceleration path is active (gravity-exclusion
capability resolved `false`) and no last-known orientation quaternion
exists — which is the case immediately after `disconnect()`, since it clears
it — a motion event dispatches no acceleration-typed event and leaves the
state unchanged (withheld, not an error, not queued); as soon as a
last-known orientation exists, the same conditions dispatch the derived
gravity-exclusive event. -/
theorem derived_acceleration_withheld_without_orientation :
    (∀ (isIOS : Bool) (st : ObserverState) (now : ℤ) (e : RawMotion),
      st.hasAccelerationWithoutGravity = .bool false →
      st.lastOrientationQuat = none →
      (handleMotion isIOS st now e).1 = st ∧
      ∀ p ∈ (handleMotion isIOS st now e).2, p.1 ≠ MotionType.acceleration) ∧
    (∀ st : ObserverState, (disconnect st).lastOrientationQuat = none) ∧
    (∀ (isIOS : Bool) (st : ObserverState) (now : ℤ) (e : RawMotion) (q : Quat),
      st.hasAccelerationWithoutGravity = .bool false →
      st.lastOrientationQuat = some q →
      MotionType.acceleration ∈ st.observed →
      (MotionType.acceleration,
        accelerationEventFromAccInclGravityEventAndOrientationQuat
          (accelerationInclGravityEventFromDevice isIOS e) q)
        ∈ (handleMotion isIOS st now e).2) := by
  refine ⟨?_, fun st => rfl, ?_⟩
  · intro isIOS st now e hflag hquat
    simp only [handleMotion, hflag, hquat]
    constructor
    · split <;> rfl
    · intro p hp
      split at hp <;> simp at hp
      obtain ⟨-, rfl⟩ := hp
      simp
  · intro isIOS st now e q hflag hquat hobs
    simp [handleMotion, hflag, hquat, hobs]

/-- Witness for C7: a state in derived mode with no last-known orientation
withholds acceleration; the same state with an identity last-known
orientation dispatches the derived event; `disconnect` clears the
quaternion. -/
theorem derived_acceleration_withheld_without_orientation_witness :
    (handleMotion false
        { initialState with hasAccelerationWithoutGravity := .bool false,
                            observed := [MotionType.acceleration] }
        5 (⟨none, none, 16⟩ : RawMotion)).1
      = { initialState with hasAccelerationWithoutGravity := .bool false,
                            observed := [MotionType.acceleration] } ∧
    (∀ p ∈ (handleMotion false
        { initialState with hasAccelerationWithoutGravity := .bool false,
                            observed := [MotionType.acceleration] }
        5 (⟨none, none, 16⟩ : RawMotion)).2, p.1 ≠ MotionType.acceleration) ∧
    (disconnect
        { initialState with lastOrientationQuat := some ⟨0, 0, 0, 1⟩ }).lastOrientationQuat
      = none ∧
    (MotionType.acceleration,
      accelerationEventFromAccInclGravityEventAndOrientationQuat
        (accelerationInclGravityEventFromDevice false (⟨none, none, 16⟩ : RawMotion))
        ⟨0, 0, 0, 1⟩)
      ∈ (handleMotion false
          { initialState with hasAccelerationWithoutGravity := .bool false,
                              observed := [MotionType.acceleration],
                              lastOrientationQuat := some ⟨0, 0, 0, 1⟩ }
          5 (⟨none, none, 16⟩ : RawMotion)).2 := by
  refine ⟨(derived_acceleration_withheld_without_orientation.1 false _ 5 _ rfl rfl).1,
    (derived_acceleration_withheld_without_orientation.1 false _ 5 _ rfl rfl).2,
    derived_acceleration_withheld_without_orientation.2.1 _,
    derived_acceleration_withheld_without_orientation.2.2 false _ 5 _ ⟨0, 0, 0, 1⟩
      rfl rfl (by simp)⟩

/-! ### The registry after disconnect (C9) -/

/-- C9: `disconnect()` clears the callback `Map`s themselves (removing every
motion-type key, not emptying the per-type sets), so afterwards every
registration or removal call — `bind`, `addEventListener`, `on`, `once`,
`unbind`, `removeEventListener`, `off` — hits a missing per-type set and
throws (modelled as `none`), and after re-observing (with permission
granted) any dispatch pass also throws: listening cannot actually be
resumed by `observe` alone. -/
theorem disconnect_breaks_registry_permanently :
    ∀ (st : ObserverState) (t : MotionType) (cb : DispatchListener)
      (filter : Option (List MotionType)) (b : Bool),
      bind (disconnect st) t cb = none ∧
      addEventListener (disconnect st) t cb = none ∧
      on' (disconnect st) t cb = none ∧
      once (disconnect st) t cb = none ∧
      unbind (disconnect st) t cb = none ∧
      removeEventListener (disconnect st) t cb = none ∧
      off (disconnect st) t cb = none ∧
      triggerCallbacks (disconnect st) t b = none ∧
      ∃ st2, observe (disconnect st) filter true = .ok st2 ∧
        ∀ (t2 : MotionType) (b2 : Bool), triggerCallbacks st2 t2 b2 = none := by
  intro st t cb filter b
  refine ⟨rfl, rfl, rfl, rfl, rfl, rfl, rfl, rfl, ?_⟩
  by_cases h : (filter.getD allMotionTypes).length ≠ 0
  · refine ⟨addListeners
      { disconnect st with
          observed := (filter.getD allMotionTypes).foldl observedAdd (disconnect st).observed },
      ?_, ?_⟩
    · simp [observe, h]
    · intro t2 b2
      rfl
  · refine ⟨addListeners (disconnect st), ?_, ?_⟩
    · simp [observe, h]
    · intro t2 b2
      rfl

/-! ### Non-atomic observe on permission rejection (C10) -/

/-- Membership in a fold of `observedAdd`: anything in the folded list or
already in the accumulator ends up in the result. -/
theorem mem_foldl_observedAdd (l : List MotionType) :
    ∀ (acc : List MotionType) (t : MotionType), (t ∈ l ∨ t ∈ acc) →
      t ∈ l.foldl observedAdd acc := by
  induction l with
  | nil =>
    intro acc t h
    simpa using h
  | cons a l ih =>
    intro acc t h
    apply ih
    rcases h with h | h
    · rcases List.mem_cons.mp h with rfl | h
      · right
        unfold observedAdd
        split
        · assumption
        · simp
      · left; exact h
    · right
      unfold observedAdd
      split
      · exact h
      · simp [h]

/-- C10: `observe(filter)` adds the filter's motion-types to the observed
set before awaiting the permission request, so when the permission promise
rejects, the returned failure state retains every newly added type while the
native listener wiring (and all other state) is unchanged — the failed
`observe` is not atomic. -/
theorem observe_rejection_retains_observed_types :
    ∀ (st : ObserverState) (filter : Option (List MotionType)),
      ∃ st2, observe st filter false = .error st2 ∧
        (∀ t ∈ filter.getD allMotionTypes, t ∈ st2.observed) ∧
        st2.attached = st.attached ∧
        st2.callbacks = st.callbacks ∧
        st2.onceCallbacks = st.onceCallbacks ∧
        st2.hasAbsoluteOrientation = st.hasAbsoluteOrientation ∧
        st2.hasAccelerationWithoutGravity = st.hasAccelerationWithoutGravity ∧
        st2.lastOrientationQuat = st.lastOrientationQuat := by
  intro st filter
  by_cases h : (filter.getD allMotionTypes).length ≠ 0
  · refine ⟨{ st with observed := (filter.getD allMotionTypes).foldl observedAdd st.observed },
      ?_, ?_, rfl, rfl, rfl, rfl, rfl, rfl⟩
    · simp [observe, h]
    · intro t ht
      exact mem_foldl_observedAdd _ _ t (Or.inl ht)
  · refine ⟨st, ?_, ?_, rfl, rfl, rfl, rfl, rfl, rfl⟩
    · simp [observe, h]
    · intro t ht
      have hnil : filter.getD allMotionTypes = [] :=
        List.length_eq_zero.mp (not_ne_iff.mp h)
      rw [hnil] at ht
      exact absurd ht (List.not_mem_nil t)

end MotionObserverSpec
